import Mathlib

namespace TenancyBot

/-- Segment of LEGAL_ASSISTANT_PROMPT before the chat_history slot. -/
def laSeg0 : String :=
  "\nYou are a friendly and knowledgeable legal assistant specializing in Ontario Tenancy Law. Your responses should be natural, clear, and include specific law citations only when directly relevant.\n\nCHAT HISTORY:\n"

/-- Segment of LEGAL_ASSISTANT_PROMPT between the chat_history and user_query slots. -/
def laSeg1 : String :=
  "\n\nUSER QUERY:\n"

/-- Segment of LEGAL_ASSISTANT_PROMPT between the user_query and law_text slots. -/
def laSeg2 : String :=
  "\n\nRELEVANT LAW:\n"

/-- Segment of LEGAL_ASSISTANT_PROMPT after the law_text slot. -/
def laSeg3 : String :=
  "\n"

/-- Segment of RENTAL_CONTRACT_ANALYZER_PROMPT before the law_text slot. -/
def caSeg0 : String :=
  "\nYou are an expert rental contract analyzer specializing in Ontario tenancy law. Your task is to analyze the provided rental contract and evaluate it against the switzerland State Tenancy Law.\n\nANALYSIS REQUIREMENTS:\n1. Compliance Check: Compare each clause against the tenancy law\n2. Identify Issues: Flag any terms that violate or conflict with the law\n3. Missing Elements: Note any required provisions that are missing\n4. Recommendations: Suggest specific improvements or modifications\n\nANALYZE THE FOLLOWING ASPECTS:\n- Rent terms and payment structure\n- Notice periods\n- Rights and obligations of both parties\n- Security deposits and service charges\n- Maintenance responsibilities\n- Termination clauses\n- Any unusual or concerning terms\n\nREFERENCE LAW:\n"

/-- Segment of RENTAL_CONTRACT_ANALYZER_PROMPT between the law_text and contract_text slots. -/
def caSeg1 : String :=
  "\n\nRENTAL CONTRACT TO ANALYZE:\n"

/-- Segment of RENTAL_CONTRACT_ANALYZER_PROMPT after the contract_text slot. -/
def caSeg2 : String :=
  "\n\nPlease provide a comprehensive analysis with the following structure:\n\n1. OVERALL ASSESSMENT\n- Brief evaluation of the contract's compliance\n- Quality score (1-10) with justification\n\n2. COMPLIANT ELEMENTS\n- List provisions that properly align with the law\n- Note particularly well-crafted clauses\n\n3. ISSUES AND VIOLATIONS\n- Identify clauses that violate the law\n- Explain why they're problematic\n- Reference specific sections of the law\n\n4. MISSING ELEMENTS\n- List required provisions that are absent\n- Explain why they're necessary\n\n5. RECOMMENDATIONS\n- Specific changes needed for compliance\n- Suggested additional provisions\n- Language improvements for clarity\n\n6. RISK ASSESSMENT\n- Potential legal vulnerabilities\n- Enforceability concerns\n- Protection gaps for either party\n"

/-- The fixed statutory text from data/law_text.py (TENANCY_LAW). -/
def TENANCY_LAW : String :=
  "\n# Ontario Rental Law\n\n## 1. GOVERNING LAWS AND JURISDICTION \n\n### 1.1 Primary Legislation\n- Residential Tenancies Act (RTA)\n- Housing Services Act (HSA)\n- Ontario Human Rights Code\n- Municipal property standards and by-laws\n- Co-operative Corporations Act\n- Retirement Homes Act\n\n### 1.2 Scope of Application\n- Applies to most residential tenancies\n- Exclusions:\n  * Shared kitchen/bathroom with owner\n  * Temporary accommodations\n  * Care homes\n  * Emergency shelters\n  * Student residences\n\n### 1.3 Protected Rights\n16 protected grounds in housing:\n- Disability\n- Race, color, ancestry\n- Place of origin, citizenship\n- Ethnic origin\n- Creed (religion)  \n- Receipt of public assistance\n- Gender identity/expression\n- Sex, sexual orientation\n- Marital status\n- Family status\n- Age\n\n## 2. TENANCY FUNDAMENTALS\n\n### 2.1 Deposits and Payments\n- Last month's rent deposit permitted\n- Key deposit allowed (limited to replacement cost)\n- Damage deposits prohibited\n- Pet deposits prohibited\n- Post-dated cheques cannot be required\n- Interest must be paid on deposits annually\n\n### 2.2 Rent and Payments\n- Due at end of month unless otherwise agreed\n- Must be paid in full and on time\n- Rent withholding not permitted\n- Last month's deposit only for final month\n- Rent receipts must be provided if requested\n\n### 2.3 Rent Increases\n- Once per year maximum\n- 90 days written notice required\n- Subject to annual provincial guideline\n- Must use official forms\n- Exceptions for:\n  * New buildings (post-Nov 15, 2018)\n  * Social housing units\n  * Shared accommodations with owner\n  * Vacant units (\"vacancy decontrol\")\n\n## 3. TENANT RIGHTS AND PROTECTIONS\n\n### 3.1 Maintenance and Repairs\n- Landlord responsible for all repairs\n- Must maintain property to health/safety standards\n- Responsibility exists regardless of tenant's knowledge\n- Tenant must report problems promptly\n- Includes appliances and common areas\n- Local property standards apply\n- Provincial standards where no local standards exist\n\n### 3.2 Entry and Privacy\n- 24 hours written notice required\n- Entry between 8am-8pm only\n- Must state reason for entry\n- Exceptions for:\n  * Emergencies\n  * Agreed entry\n  * Showing unit (after termination notice)\n  * Sales showings\n\n### 3.3 Accommodation Rights\n- Landlords must accommodate disabilities\n- Modifications required up to undue hardship\n- Medical documentation may be requested but:\n  * Cannot require specific diagnosis\n  * Must maintain confidentiality\n  * Landlord pays for documentation\n- Costs borne by landlord\n- Timely response required\n\n### 3.4 Services and Utilities\n- Heat minimum requirements (typically 20-21°C)\n- Air conditioning if provided must be maintained\n- Utilities must be continuous\n- Changes to services require proper notice\n- Additional fees must be reasonable\n\n### 3.5 Pest Control\n- Landlord responsible for pest control\n- Additional requirements for large buildings:\n  * 30-day inspection requirements\n  * 72-hour response time\n  * Documentation requirements\n  * Prevention measures\n- Tenant must cooperate with treatment\n\n## 4. LEASE TERMINATION\n\n### 4.1 Notice Requirements\n- 60 days for month-to-month tenancies\n- Must end on last day of rental period\n- Special provisions for:\n  * Domestic violence (28 days notice)\n  * Landlord's own use\n  * Sale of property\n  * Major renovations\n  * Death of tenant\n  * Assignment/subletting refusal\n\n### 4.2 Early Termination Options\n- Mutual agreement (N11 form)\n- Assignment of lease\n- Application to LTB\n- Fixed-term lease breaking penalties\n- Subletting rights (with permission)\n\n### 4.3 Eviction Process\n- Must follow LTB process\n- Written notice required\n- Valid grounds required\n- Proper notice periods\n- Hearing rights for tenant\n- Review/appeal options\n- Sheriff enforcement only\n- 72 hours for belongings removal\n\n### 4.4 Renovation/Sale Protections\n- Right of first refusal for renovations\n- 120 days notice for major renovations\n- Compensation requirements\n- Sale doesn't terminate tenancy\n- New owner bound by lease\n- Additional tenant protections\n\n## 5. DISPUTE RESOLUTION\n\n### 5.1 Landlord and Tenant Board\n- Primary forum for disputes\n- Virtual hearings standard\n- Mediation services available\n- Duty counsel assistance\n- Interpretation services\n- Accommodation requests possible\n- Documentation requirements:\n  * 7 days advance filing\n  * Evidence sharing required\n  * Proper forms used\n\n### 5.2 Filing Applications\n- Time limits apply (usually 1 year)\n- Proper forms required\n- Fees may be charged\n- Fee waiver available\n- Service requirements\n- Multiple remedies possible\n\n### 5.3 Hearing Process\n- Opening statements\n- Evidence presentation\n- Cross-examination rights\n- Final submissions\n- Written decisions\n- Appeal rights\n- Review options\n\n## 6. ADDITIONAL PROTECTIONS\n\n### 6.1 Social Housing\n- Additional rules under HSA\n- Special rent calculation\n- Additional notice requirements\n- Modified application process\n- Review rights\n- Subsidy calculations\n\n### 6.2 Harassment/Discrimination\n- Protection from harassment\n- Discrimination prohibited\n- Human Rights Tribunal options\n- Remedies available\n- Burden of proof requirements\n- Time limits for filing\n"

/-- `str.format` on LEGAL_ASSISTANT_PROMPT (utils/prompts.py, generate_prompt):
the template is filled by direct substitution of chat_history, user_query and
law_text, in template order. -/
def generate_prompt (user_query law_text chat_history : String) : String :=
  laSeg0 ++ chat_history ++ laSeg1 ++ user_query ++ laSeg2 ++ law_text ++ laSeg3

/-- `str.format` on RENTAL_CONTRACT_ANALYZER_PROMPT
(utils/prompts.py, generate_contract_analysis_prompt). -/
def generate_contract_analysis_prompt (contract_text law_text : String) : String :=
  caSeg0 ++ law_text ++ caSeg1 ++ contract_text ++ caSeg2

/-- `sub` occurs verbatim as a contiguous substring of `s`. -/
def occursIn (sub s : String) : Prop :=
  ∃ a b : String, s = a ++ sub ++ b

/-- The character class stripped by Python str.strip() (ASCII whitespace). -/
def isPySpace (c : Char) : Bool :=
  c = ' ' || c = '\t' || c = '\n' || c = '\r' || c = '\x0b' || c = '\x0c'

/-- Python str.strip(): drop leading and trailing whitespace. -/
def pyStrip (s : String) : String :=
  ⟨((s.data.dropWhile isPySpace).reverse.dropWhile isPySpace).reverse⟩

/-- Python `x or y` for an optional string `x`: `y` when `x` is None or empty
(falsy), otherwise `x`. -/
def pyOrElse (x : Option String) (y : String) : String :=
  match x with
  | some s => if s = "" then y else s
  | none => y

/-- Python truthiness test `not x` for an optional string field. -/
def isFalsyStr : Option String → Bool
  | none => true
  | some s => s = ""

/-- Python str.lower() restricted to ASCII case mapping. -/
def pyLower (s : String) : String :=
  ⟨s.data.map Char.toLower⟩

/-- Python str.endswith(suffix). -/
def pyEndsWith (s suffix : String) : Bool :=
  suffix.data.isSuffixOf s.data

/-- Decidable equality for Except values, used by the derived instances
below. -/
instance exceptDecEq {ε α : Type} [DecidableEq ε] [DecidableEq α] :
    DecidableEq (Except ε α) := fun x y =>
  match x, y with
  | .ok a, .ok b =>
      if h : a = b then isTrue (by rw [h])
      else isFalse (fun hh => h (Except.ok.inj hh))
  | .error a, .error b =>
      if h : a = b then isTrue (by rw [h])
      else isFalse (fun hh => h (Except.error.inj hh))
  | .ok _, .error _ => isFalse (fun hh => Except.noConfusion hh)
  | .error _, .ok _ => isFalse (fun hh => Except.noConfusion hh)

/-- The LLMProvider enum of src/config.py. -/
inductive LLMProvider where
  | openai
  | groq
  | anthropic
  | gemini
deriving DecidableEq

/-- Behaviour of the external vendor SDK client constructors invoked inside the
adapter constructors (ChatGroq, Anthropic, genai.configure). These live in
third-party packages, so they are parameters of the model: each either returns
a client handle or raises (error message). The OpenAI adapter constructor calls
no SDK constructor at all — it only assigns `openai.api_key` — so it has no
entry here. -/
structure SdkEnv where
  chatGroqInit : Option String → Except String Unit
  anthropicInit : Option String → Except String Unit
  genaiConfigure : Option String → Except String Unit

/-- The adapter object produced by create_llm (src/llm/llm_factory.py). The
openai variant records the key that the constructor assigned to
`openai.api_key`; the other variants hold their already-constructed SDK
client. -/
inductive LLMAdapter where
  | openai (api_key : Option String)
  | groq
  | anthropic
  | gemini
deriving DecidableEq

/-- create_llm (src/llm/llm_factory.py): dispatch on the provider and run the
corresponding adapter constructor. OpenAILLM.__init__ performs only attribute
assignments and cannot raise; the other three constructors call a vendor SDK
constructor which may raise. -/
def create_llm (env : SdkEnv) (provider : LLMProvider) (api_key : Option String) :
    Except String LLMAdapter :=
  match provider with
  | .openai => .ok (.openai api_key)
  | .groq => (env.chatGroqInit api_key).map fun _ => .groq
  | .anthropic => (env.anthropicInit api_key).map fun _ => .anthropic
  | .gemini => (env.genaiConfigure api_key).map fun _ => .gemini

/-- OpenAILLM.get_response: forward the SDK call result, wrapping any raised
error with the provider prefix (src/llm/llm_providers.py). The argument is the
outcome of the external chat-completion call plus content extraction. -/
def openai_get_response (sdkCall : Except String String) : Except String String :=
  match sdkCall with
  | .ok text => .ok text
  | .error e => .error ("OpenAI Error: " ++ e)

/-- GroqLLM.get_response error wrapping (src/llm/llm_providers.py). -/
def groq_get_response (sdkCall : Except String String) : Except String String :=
  match sdkCall with
  | .ok text => .ok text
  | .error e => .error ("Groq Error: " ++ e)

/-- AnthropicLLM.get_response error wrapping (src/llm/llm_providers.py). -/
def anthropic_get_response (sdkCall : Except String String) : Except String String :=
  match sdkCall with
  | .ok text => .ok text
  | .error e => .error ("Anthropic Error: " ++ e)

/-- GeminiLLM.get_response error wrapping (src/llm/llm_providers.py). -/
def gemini_get_response (sdkCall : Except String String) : Except String String :=
  match sdkCall with
  | .ok text => .ok text
  | .error e => .error ("Gemini Error: " ++ e)

/-- Raw file bytes. -/
abbrev Bytes := List Nat

/-- A single PDF page object as held by pypdf. -/
abbrev Page := String

/-- The runtime value stored in the DocumentFile.doc_type field. Python does
not enforce the dataclass annotation, so besides the two DocumentType enum
members any other value can sit there; `other` carries its repr, which is what
the f-string in the unsupported-type error interpolates. -/
inductive DocTypeTag where
  | pdf
  | word
  | other (repr : String)
deriving DecidableEq

/-- The DocumentFile dataclass (services/document_processor.py). -/
structure DocumentFile where
  data_bytes : Bytes
  name : String
  doc_type : DocTypeTag
  title : Option String := none
deriving DecidableEq

/-- What PdfReader(io.BytesIO(bytes)) exposes of a successfully read PDF: its
page list, and the outcome of the `reader.metadata` / `metadata.get("/Title")`
access — `.error` when that access raises, `.ok none` when no title entry is
present (or it is None), `.ok (some t)` when the entry holds string `t`. -/
structure PdfReaderData where
  pages : List Page
  metaTitle : Except String (Option String)
deriving DecidableEq

/-- A file written into the call-scoped temporary directory: either a
single-page PDF container holding copied page objects, or a text file. -/
inductive FileData where
  | pdfPages (pages : List Page)
  | textFile (content : String)
deriving DecidableEq

/-- DocumentProcessor._extract_pdf_title: return the stripped metadata title
when the entry is present and truthy; None when it is absent, None or empty;
None as well when the metadata access raises. -/
def extract_pdf_title (reader : PdfReaderData) : Option String :=
  match reader.metaTitle with
  | .error _ => none
  | .ok none => none
  | .ok (some t) => if t = "" then none else some (pyStrip t)

/-- The title mutation at the top of DocumentProcessor._split_pdf_pages:
`if not document.title: document.title = self._extract_pdf_title(reader) or
document.name`. -/
def assignTitle (doc : DocumentFile) (reader : PdfReaderData) : DocumentFile :=
  if isFalsyStr doc.title then
    { doc with title := some (pyOrElse (extract_pdf_title reader) doc.name) }
  else
    doc

/-- DocumentProcessor._split_pdf_pages: assign the title, then write page i
(1-based) of the reader into `<temp_dir>/page_i.pdf` as a fresh single-page
container, collecting the paths in order. Returns the mutated document and the
(path, file content) pairs written. -/
def split_pdf_pages (tempDir : String) (doc : DocumentFile) (reader : PdfReaderData) :
    DocumentFile × List (String × FileData) :=
  (assignTitle doc reader,
   reader.pages.enum.map fun p =>
     (tempDir ++ "/page_" ++ toString (p.1 + 1) ++ ".pdf", .pdfPages [p.2]))

/-- DocumentProcessor._split_word_pages: write the whole document to
complete.docx, hand that path to the external parser (`aload`), and write each
returned section's text to `<temp_dir>/page_i.docx`. The parser call may
raise. -/
def split_word_pages (aload : String → Except String (List String)) (tempDir : String)
    (doc : DocumentFile) : Except String (DocumentFile × List (String × FileData)) :=
  match aload (tempDir ++ "/complete.docx") with
  | .error e => .error e
  | .ok sections =>
      .ok (doc, sections.enum.map fun p =>
        (tempDir ++ "/page_" ++ toString (p.1 + 1) ++ ".docx", .textFile p.2))

/-- DocumentProcessor.split_document_pages: dispatch on doc_type inside a
try/except that re-raises every failure — including the function's own
unsupported-type DocumentProcessingError — wrapped as
"Document splitting failed: {str(e)}". `readPdf` stands for the external
PdfReader constructor, `aload` for the external parser. -/
def split_document_pages (readPdf : Bytes → Except String PdfReaderData)
    (aload : String → Except String (List String)) (tempDir : String)
    (doc : DocumentFile) : Except String (DocumentFile × List (String × FileData)) :=
  let inner : Except String (DocumentFile × List (String × FileData)) :=
    match doc.doc_type with
    | .pdf =>
        match readPdf doc.data_bytes with
        | .ok reader => .ok (split_pdf_pages tempDir doc reader)
        | .error e => .error e
    | .word => split_word_pages aload tempDir doc
    | .other r => .error ("Unsupported document type: " ++ r)
  match inner with
  | .ok res => .ok res
  | .error e => .error ("Document splitting failed: " ++ e)

/-- DocumentProcessor.parse_document: raise "File paths are required" on an
empty path list before any parser call; otherwise call the external parser
once per path in order, extending the accumulator with the parsed sections
when the call succeeds with a non-empty result, and skipping the path when it
raises. Returns the result together with the trace of paths actually handed to
the parser. -/
def parse_document (aload : String → Except String (List String))
    (file_paths : List String) : Except String (List String) × List String :=
  if file_paths = [] then
    (.error "File paths are required", [])
  else
    let documents := file_paths.foldl (fun docs p =>
      match aload p with
      | .ok parsed => if parsed ≠ [] then docs ++ parsed else docs
      | .error _ => docs) []
    (.ok documents, file_paths)

/-- A directory entry of the temp_files root as seen by os.listdir. -/
structure DirEntry where
  name : String
  isDir : Bool
deriving DecidableEq

/-- The removal test of DocumentProcessor.cleanup_old_files for one entry:
directories other than ".gitkeep" whose name strptime-parses as a date
(`parseDate`, the external datetime.strptime with format "%Y-%m-%d", returning
a timestamp) strictly before `now - days_to_keep` are rmtree'd; a ValueError
from parsing is swallowed and the entry kept. -/
def cleanup_removes (parseDate : String → Option Int) (now days_to_keep : Int)
    (item : DirEntry) : Bool :=
  item.isDir && item.name ≠ ".gitkeep" &&
    match parseDate item.name with
    | some d => decide (d < now - days_to_keep)
    | none => false

/-- DocumentProcessor.cleanup_old_files: the entries surviving the sweep. -/
def cleanup_old_files (parseDate : String → Option Int) (now days_to_keep : Int)
    (entries : List DirEntry) : List DirEntry :=
  entries.filter fun e => !cleanup_removes parseDate now days_to_keep e

/-- The ProcessedDocument dataclass (streamlit_app.py). -/
structure ProcessedDocument where
  content : String
  file_name : String
  num_pages : Nat
  doc_type : String
deriving DecidableEq

/-- DocumentProcessingService.process_document (streamlit_app.py): write the
upload to one temporary file (`tempPath`), run parse_document on the
one-element path list, require a non-empty parse result, keep the stripped
text of each section whose text is truthy and strips to a non-empty string,
join them with blank lines, and package the ProcessedDocument. Every raise is
re-wrapped as "Failed to process document: {str(e)}". The second component is
the trace of paths handed to the external parser. -/
def process_document (aload : String → Except String (List String))
    (tempPath : String) (file_name : String) :
    Except String ProcessedDocument × List String :=
  let pr := parse_document aload [tempPath]
  match pr.1 with
  | .error e => (.error ("Failed to process document: " ++ e), pr.2)
  | .ok parsed_docs =>
    if parsed_docs = [] then
      (.error ("Failed to process document: No content extracted from document"), pr.2)
    else
      let contents := (parsed_docs.filter fun c => c ≠ "" && pyStrip c ≠ "").map pyStrip
      if contents = [] then
        (.error ("Failed to process document: No valid content found in parsed documents"),
         pr.2)
      else
        (.ok { content := String.intercalate "\n\n" contents,
               file_name := file_name,
               num_pages := contents.length,
               doc_type := if pyEndsWith (pyLower file_name) ".pdf" then "pdf" else "docx" },
         pr.2)

/-- LegalAssistant.analyze_contract (services/legal_assistant.py): build the
contract-analysis prompt over the fixed TENANCY_LAW constant, submit it to the
configured adapter (`llm`), and wrap any raise as
"Error analyzing contract: {str(e)}". -/
def analyze_contract (llm : String → Except String String) (contract_text : String) :
    Except String String :=
  match llm (generate_contract_analysis_prompt contract_text TENANCY_LAW) with
  | .ok r => .ok r
  | .error e => .error ("Error analyzing contract: " ++ e)

/-- One chat message of st.session_state.messages. -/
structure Msg where
  role : String
  content : String
deriving DecidableEq

/-- One Streamlit script rerun is triggered by exactly one interaction event:
a chat_input submission (carrying the outcome of the assistant call made while
handling it), a click on one button widget (identified by its label), or
anything that touches no message-mutating widget. -/
inductive UiEvent where
  | chatSubmit (prompt : String) (llmResult : Except String String)
  | clickButton (label : String)
  | idle
deriving DecidableEq

/-- st.button: a button widget reads True exactly in the rerun triggered by
its own click. -/
def buttonPressed (ev : UiEvent) (label : String) : Bool :=
  ev = .clickButton label

/-- The effect of StreamlitApp.render_chat_assistant on
st.session_state.messages during one rerun: on a chat submission the user
message is appended, then the assistant reply is appended when the assistant
call returns (on a raise the error is shown and nothing more is appended);
every other event only re-renders the existing messages. -/
def render_chat_assistant_step (ev : UiEvent) (msgs : List Msg) : List Msg :=
  match ev with
  | .chatSubmit prompt llmResult =>
      let msgs1 := msgs ++ [{ role := "user", content := prompt }]
      match llmResult with
      | .ok response => msgs1 ++ [{ role := "assistant", content := response }]
      | .error _ => msgs1
  | _ => msgs

/-- The effect of StreamlitApp.render_sidebar on st.session_state.messages
during one rerun: when messages exist and the Clear Chat button reads True, a
Confirm Clear button is rendered, and only if that one also reads True in the
same rerun is the list reset to []. -/
def render_sidebar_step (ev : UiEvent) (msgs : List Msg) : List Msg :=
  if msgs ≠ [] then
    if buttonPressed ev "🗑️ Clear Chat" then
      if buttonPressed ev "⚠️ Confirm Clear" then [] else msgs
    else msgs
  else msgs

/-- StreamlitApp.main for one rerun: the chat tab renders (the contract tab
never touches st.session_state.messages), then the sidebar renders. -/
def app_step (ev : UiEvent) (msgs : List Msg) : List Msg :=
  render_sidebar_step ev (render_chat_assistant_step ev msgs)

/-- Helper: Python str.strip of the empty string is empty, so a non-empty
stripped string comes from a non-empty original. -/
theorem pyStrip_ne_empty {s : String} (h : pyStrip s ≠ "") : s ≠ "" := by
  intro he
  subst he
  exact h rfl

/-- Helper: the sidebar never mutates the message list, because the nested
Confirm Clear button cannot read True in the rerun in which the Clear Chat
button reads True — one rerun carries one widget event. -/
theorem render_sidebar_step_eq (ev : UiEvent) (msgs : List Msg) :
    render_sidebar_step ev msgs = msgs := by
  unfold render_sidebar_step buttonPressed
  by_cases hne : msgs ≠ []
  · rw [if_pos hne]
    by_cases hb : ev = UiEvent.clickButton "🗑️ Clear Chat"
    · subst hb
      simp
    · simp [hb]
  · rw [if_neg hne]

/-- C1: generate_prompt and generate_contract_analysis_prompt are pure
substitutions into the fixed templates: the produced prompt contains the chat
history, the user query, the law text (resp. the contract text and the law
text) each verbatim as contiguous substrings, unaltered. -/
theorem C1_prompt_pure_substitution
    (user_query law_text chat_history contract_text : String) :
    occursIn chat_history (generate_prompt user_query law_text chat_history) ∧
    occursIn user_query (generate_prompt user_query law_text chat_history) ∧
    occursIn law_text (generate_prompt user_query law_text chat_history) ∧
    occursIn contract_text (generate_contract_analysis_prompt contract_text law_text) ∧
    occursIn law_text (generate_contract_analysis_prompt contract_text law_text) := by
  refine ⟨⟨laSeg0, laSeg1 ++ user_query ++ laSeg2 ++ law_text ++ laSeg3, ?_⟩,
          ⟨laSeg0 ++ chat_history ++ laSeg1, laSeg2 ++ law_text ++ laSeg3, ?_⟩,
          ⟨laSeg0 ++ chat_history ++ laSeg1 ++ user_query ++ laSeg2, laSeg3, ?_⟩,
          ⟨caSeg0 ++ law_text ++ caSeg1, caSeg2, ?_⟩,
          ⟨caSeg0, caSeg1 ++ contract_text ++ caSeg2, ?_⟩⟩ <;>
    simp [generate_prompt, generate_contract_analysis_prompt, String.append_assoc]

/-- C2 counterexample: even in an environment in which every vendor SDK
constructor rejects a missing key, create_llm for the openai selector with no
API key succeeds at construction time — OpenAILLM.__init__ only assigns
`openai.api_key` and validates nothing, so the claim that construction fails
for every supported provider with no key configured is false. -/
theorem C2_counterexample :
    create_llm
      { chatGroqInit := fun k =>
          if k.isSome then .ok () else .error "Did not find groq_api_key",
        anthropicInit := fun k =>
          if k.isSome then .ok () else .error "The api_key client option must be set",
        genaiConfigure := fun k =>
          if k.isSome then .ok () else .error "No API key given" }
      .openai none = .ok (.openai none) := rfl

/-- C2 amended: construction of the openai adapter never fails, regardless of
the key (no key validation happens until the API call); for groq, anthropic
and gemini, construction fails exactly when the vendor SDK constructor it
calls fails; and every get_response failure raises an error prefixed with the
provider's identifying name. -/
theorem C2_provider_construction_and_prefix (env : SdkEnv) (key : Option String)
    (e : String) :
    create_llm env .openai key = .ok (.openai key) ∧
    (create_llm env .groq key).isOk = (env.chatGroqInit key).isOk ∧
    (create_llm env .anthropic key).isOk = (env.anthropicInit key).isOk ∧
    (create_llm env .gemini key).isOk = (env.genaiConfigure key).isOk ∧
    openai_get_response (.error e) = .error ("OpenAI Error: " ++ e) ∧
    groq_get_response (.error e) = .error ("Groq Error: " ++ e) ∧
    anthropic_get_response (.error e) = .error ("Anthropic Error: " ++ e) ∧
    gemini_get_response (.error e) = .error ("Gemini Error: " ++ e) := by
  have hmap : ∀ (x : Except String Unit) (f : Unit → LLMAdapter),
      (x.map f).isOk = x.isOk := by
    intro x f
    cases x <;> rfl
  exact ⟨rfl, hmap .., hmap .., hmap .., rfl, rfl, rfl, rfl⟩

/-- C5: for every rerun event, the chat message history of the session is only
ever extended at the end — the previous list is a prefix of the new one. The
Clear Chat reset is unreachable because its confirming button is nested under
the triggering button and the two cannot read True in the same rerun. -/
theorem C5_chat_history_append_only (ev : UiEvent) (msgs : List Msg) :
    msgs <+: app_step ev msgs := by
  unfold app_step
  rw [render_sidebar_step_eq]
  cases ev with
  | chatSubmit prompt llmResult =>
      cases llmResult with
      | ok r =>
          exact ⟨[{ role := "user", content := prompt },
                  { role := "assistant", content := r }], by
            simp [render_chat_assistant_step]⟩
      | error err =>
          exact ⟨[{ role := "user", content := prompt }], by
            simp [render_chat_assistant_step]⟩
  | clickButton label => exact ⟨[], by simp [render_chat_assistant_step]⟩
  | idle => exact ⟨[], by simp [render_chat_assistant_step]⟩

/-- C8: parse_document called on an empty path list raises the
DocumentProcessingError "File paths are required" and its trace of parser
calls is empty — no outbound parsing call is attempted. -/
theorem C8_empty_paths_rejected_before_parsing
    (aload : String → Except String (List String)) :
    parse_document aload [] = (.error "File paths are required", []) := rfl

/-- C3: for a PDF DocumentFile whose bytes PdfReader reads successfully as an
N-page document, split_document_pages succeeds and returns exactly N output
file paths, where the i-th (0-based) entry is `page_(i+1).pdf` inside the
call-scoped temporary directory and holds a container with exactly the single
i-th page of the input. -/
theorem C3_split_pdf_pages_structure (readPdf : Bytes → Except String PdfReaderData)
    (aload : String → Except String (List String)) (tempDir : String)
    (doc : DocumentFile) (reader : PdfReaderData)
    (hty : doc.doc_type = .pdf) (hread : readPdf doc.data_bytes = .ok reader) :
    ∃ doc2 files,
      split_document_pages readPdf aload tempDir doc = .ok (doc2, files) ∧
      files.length = reader.pages.length ∧
      ∀ i, (hi : i < reader.pages.length) →
        files[i]? = some (tempDir ++ "/page_" ++ toString (i + 1) ++ ".pdf",
                          .pdfPages [reader.pages[i]]) := by
  refine ⟨assignTitle doc reader,
          reader.pages.enum.map fun p =>
            (tempDir ++ "/page_" ++ toString (p.1 + 1) ++ ".pdf", .pdfPages [p.2]),
          ?_, ?_, ?_⟩
  · simp [split_document_pages, hty, hread, split_pdf_pages]
  · simp
  · intro i hi
    simp [List.getElem?_map, List.getElem?_enum, hi]

/-- C3 witness: a concrete two-page PDF. -/
theorem C3_split_pdf_pages_structure_witness :
    ∃ doc2 files,
      split_document_pages (fun _ => .ok { pages := ["PAGE-A", "PAGE-B"], metaTitle := .ok none })
        (fun _ => .error "unused") "T"
        { data_bytes := [0], name := "d.pdf", doc_type := .pdf, title := none } = .ok (doc2, files) ∧
      files.length = (["PAGE-A", "PAGE-B"] : List Page).length ∧
      ∀ i, (hi : i < (["PAGE-A", "PAGE-B"] : List Page).length) →
        files[i]? = some ("T" ++ "/page_" ++ toString (i + 1) ++ ".pdf",
                          .pdfPages [(["PAGE-A", "PAGE-B"] : List Page)[i]]) :=
  C3_split_pdf_pages_structure (fun _ => .ok { pages := ["PAGE-A", "PAGE-B"], metaTitle := .ok none })
    (fun _ => .error "unused") "T"
    { data_bytes := [0], name := "d.pdf", doc_type := .pdf, title := none }
    { pages := ["PAGE-A", "PAGE-B"], metaTitle := .ok none } rfl rfl

/-- C6 counterexample: a PDF whose metadata title is the single-space string
" " — present and non-empty — does not get that embedded title: splitting
strips it to the empty string, treats it as falsy and assigns the original
file name instead, so the claim as stated fails at this input. -/
theorem C6_counterexample :
    (split_pdf_pages "T"
        { data_bytes := [], name := "contract.pdf", doc_type := .pdf, title := none }
        { pages := ["p1"], metaTitle := .ok (some " ") }).1.title
      = some "contract.pdf" ∧ ("contract.pdf" : String) ≠ " " := by
  constructor
  · rfl
  · decide

/-- C6 amended: for a document entering _split_pdf_pages with no title yet,
splitting assigns the whitespace-stripped embedded metadata title when that
stripped title is non-empty; when the metadata title is absent, empty, or
whitespace-only, or the metadata access raises, it assigns the original file
name instead — and in every case it returns without raising. -/
theorem C6_pdf_title_fallback (tempDir : String) (doc : DocumentFile)
    (reader : PdfReaderData) (hfresh : doc.title = none) :
    (∀ t, reader.metaTitle = .ok (some t) → pyStrip t ≠ "" →
        (split_pdf_pages tempDir doc reader).1.title = some (pyStrip t)) ∧
    (∀ t, reader.metaTitle = .ok (some t) → pyStrip t = "" →
        (split_pdf_pages tempDir doc reader).1.title = some doc.name) ∧
    (reader.metaTitle = .ok none →
        (split_pdf_pages tempDir doc reader).1.title = some doc.name) ∧
    (∀ e, reader.metaTitle = .error e →
        (split_pdf_pages tempDir doc reader).1.title = some doc.name) := by
  refine ⟨?_, ?_, ?_, ?_⟩
  · intro t hm hs
    have ht : t ≠ "" := pyStrip_ne_empty hs
    simp [split_pdf_pages, assignTitle, isFalsyStr, hfresh, extract_pdf_title, hm, ht,
      pyOrElse, hs]
  · intro t hm hs
    by_cases ht : t = ""
    · simp [split_pdf_pages, assignTitle, isFalsyStr, hfresh, extract_pdf_title, hm, ht,
        pyOrElse]
    · simp [split_pdf_pages, assignTitle, isFalsyStr, hfresh, extract_pdf_title, hm, ht,
        pyOrElse, hs]
  · intro hm
    simp [split_pdf_pages, assignTitle, isFalsyStr, hfresh, extract_pdf_title, hm, pyOrElse]
  · intro e hm
    simp [split_pdf_pages, assignTitle, isFalsyStr, hfresh, extract_pdf_title, hm, pyOrElse]

/-- C6 witness: a fresh document with metadata title "  My Lease  " gets the
stripped title "My Lease"; with a whitespace-only, absent or raising metadata
title it gets the file name. -/
theorem C6_pdf_title_fallback_witness :
    (split_pdf_pages "T"
        { data_bytes := [], name := "lease.pdf", doc_type := .pdf, title := none }
        { pages := [], metaTitle := .ok (some "  My Lease  ") }).1.title
      = some (pyStrip "  My Lease  ") :=
  (C6_pdf_title_fallback "T"
      { data_bytes := [], name := "lease.pdf", doc_type := .pdf, title := none }
      { pages := [], metaTitle := .ok (some "  My Lease  ") } rfl).1
    "  My Lease  " rfl (by decide)

/-- C7: an entry of the temp_files root is removed by cleanup_old_files
exactly when it is a directory whose name parses as a date strictly older than
`now - days_to_keep`; entries within the window, entries whose name does not
parse as a date, and non-directory entries survive. `parseDate` is the
external datetime.strptime with format "%Y-%m-%d", which fails on the name
".gitkeep". -/
theorem C7_cleanup_retention (parseDate : String → Option Int)
    (now days_to_keep : Int) (entries : List DirEntry) (item : DirEntry)
    (hgitkeep : parseDate ".gitkeep" = none) (hmem : item ∈ entries) :
    item ∉ cleanup_old_files parseDate now days_to_keep entries ↔
      item.isDir = true ∧ ∃ d, parseDate item.name = some d ∧ d < now - days_to_keep := by
  have hstep : item ∉ cleanup_old_files parseDate now days_to_keep entries ↔
      cleanup_removes parseDate now days_to_keep item = true := by
    simp [cleanup_old_files, List.mem_filter, hmem]
  rw [hstep]
  unfold cleanup_removes
  by_cases hname : item.name = ".gitkeep"
  · rw [hname, hgitkeep]
    simp [hname]
  · cases hd : parseDate item.name with
    | none =>
        simp [hname, hd]
    | some d =>
        simp [hname, hd]

/-- C7 witness: with a parse map dating "2017-01-01" to day 0, at now = 10
with a 7-day window, the old dated directory is removed. -/
theorem C7_cleanup_retention_witness :
    (⟨"2017-01-01", true⟩ : DirEntry) ∉
      cleanup_old_files (fun s => if s = "2017-01-01" then some (0 : Int) else none) 10 7
        [⟨"2017-01-01", true⟩] ↔
      (⟨"2017-01-01", true⟩ : DirEntry).isDir = true ∧
      ∃ d : Int, (fun s => if s = "2017-01-01" then some (0 : Int) else none)
          (⟨"2017-01-01", true⟩ : DirEntry).name = some d ∧
        d < 10 - 7 :=
  C7_cleanup_retention (fun s => if s = "2017-01-01" then some (0 : Int) else none) 10 7
    [⟨"2017-01-01", true⟩] ⟨"2017-01-01", true⟩ (by decide) (by decide)

/-- Helper: the accumulator loop of parse_document equals flatMap over the
per-path parse outcomes, failures contributing nothing. -/
theorem parse_document_foldl_eq (aload : String → Except String (List String)) :
    ∀ (ps : List String) (acc : List String),
      ps.foldl (fun docs p =>
        match aload p with
        | .ok parsed => if parsed ≠ [] then docs ++ parsed else docs
        | .error _ => docs) acc
      = acc ++ ps.flatMap (fun p =>
          match aload p with
          | .ok docs => docs
          | .error _ => []) := by
  intro ps
  induction ps with
  | nil => intro acc; simp
  | cons p ps ih =>
      intro acc
      rw [List.foldl_cons, List.flatMap_cons]
      cases hp : aload p with
      | ok parsed =>
          simp only [hp]
          by_cases hne : parsed = []
          · subst hne
            rw [if_neg (fun hh => hh rfl), ih]
            simp
          · rw [if_pos hne, ih, List.append_assoc]
      | error e =>
          simp only [hp]
          rw [ih]
          simp

/-- C9: on a non-empty path list, parse_document returns (without raising) the
concatenation, in input order, of the sections of exactly those files whose
individual parse succeeds; a path whose parse raises is skipped and the batch
continues, the trace still covering every path. -/
theorem C9_batch_parse_skip_and_continue (aload : String → Except String (List String))
    (file_paths : List String) (h : file_paths ≠ []) :
    parse_document aload file_paths =
      (.ok (file_paths.flatMap fun p =>
        match aload p with
        | .ok docs => docs
        | .error _ => []), file_paths) := by
  unfold parse_document
  rw [if_neg h, parse_document_foldl_eq]
  simp

/-- C9 witness: a good file followed by a failing file yields just the good
file's sections, with both paths attempted. -/
theorem C9_batch_parse_skip_and_continue_witness :
    parse_document (fun p => if p = "good.pdf" then .ok ["G1", "G2"] else .error "boom")
        ["good.pdf", "bad.pdf"] =
      (.ok ((["good.pdf", "bad.pdf"] : List String).flatMap fun p =>
        match (if p = "good.pdf" then (Except.ok ["G1", "G2"] : Except String (List String))
               else .error "boom") with
        | .ok docs => docs
        | .error _ => []), ["good.pdf", "bad.pdf"]) :=
  C9_batch_parse_skip_and_continue
    (fun p => if p = "good.pdf" then .ok ["G1", "G2"] else .error "boom")
    ["good.pdf", "bad.pdf"] (by decide)

/-- C10: split_document_pages either returns normally or raises a
DocumentProcessingError whose message begins with "Document splitting
failed: "; in particular, for an unsupported doc_type value the internally
raised "Unsupported document type: ..." error is caught by the function's own
handler and re-raised nested inside that wrapper, never escaping unwrapped. -/
theorem C10_split_error_wrapping (readPdf : Bytes → Except String PdfReaderData)
    (aload : String → Except String (List String)) (tempDir : String)
    (doc : DocumentFile) :
    ((∃ res, split_document_pages readPdf aload tempDir doc = .ok res) ∨
      (∃ rest, split_document_pages readPdf aload tempDir doc =
        .error ("Document splitting failed: " ++ rest))) ∧
    (∀ s, doc.doc_type = .other s →
      split_document_pages readPdf aload tempDir doc =
        .error ("Document splitting failed: " ++ ("Unsupported document type: " ++ s))) := by
  constructor
  · cases hty : doc.doc_type with
    | pdf =>
        cases hr : readPdf doc.data_bytes with
        | ok reader =>
            exact .inl ⟨split_pdf_pages tempDir doc reader,
              by simp [split_document_pages, hty, hr]⟩
        | error e => exact .inr ⟨e, by simp [split_document_pages, hty, hr]⟩
    | word =>
        cases ha : aload (tempDir ++ "/complete.docx") with
        | ok secs =>
            exact .inl ⟨(doc, secs.enum.map fun p =>
                (tempDir ++ "/page_" ++ toString (p.1 + 1) ++ ".docx", FileData.textFile p.2)),
              by simp [split_document_pages, split_word_pages, hty, ha]⟩
        | error e =>
            exact .inr ⟨e, by simp [split_document_pages, split_word_pages, hty, ha]⟩
    | other r =>
        exact .inr ⟨"Unsupported document type: " ++ r, by simp [split_document_pages, hty]⟩
  · intro s hs
    simp [split_document_pages, hs]

/-- C10 witness: a document whose doc_type field holds the unsupported value
"txt" produces the nested, wrapped message. -/
theorem C10_split_error_wrapping_witness :
    split_document_pages (fun _ => .error "unused") (fun _ => .error "unused") "T"
        { data_bytes := [], name := "x.txt", doc_type := .other "txt", title := none } =
      .error ("Document splitting failed: " ++ ("Unsupported document type: " ++ "txt")) :=
  (C10_split_error_wrapping (fun _ => .error "unused") (fun _ => .error "unused") "T"
    { data_bytes := [], name := "x.txt", doc_type := .other "txt", title := none }).2
    "txt" rfl

/-- C4: uploading a PDF whose single parse call returns three sections with
non-blank text results in exactly one outbound parse call (the trace is the
one temp path), the three stripped sections joined in page order as the
processed content, and — when that content is analyzed — a prompt whose
contract_text slot holds exactly that content and whose law_text slot holds
the full fixed TENANCY_LAW. Submitting through an adapter that echoes its
prompt exposes the exact prompt built by analyze_contract. -/
theorem C4_contract_analysis_pipeline (aload : String → Except String (List String))
    (tempPath file_name s1 s2 s3 : String)
    (hparse : aload tempPath = .ok [s1, s2, s3])
    (h1 : pyStrip s1 ≠ "") (h2 : pyStrip s2 ≠ "") (h3 : pyStrip s3 ≠ "")
    (hpdf : pyEndsWith (pyLower file_name) ".pdf" = true) :
    (process_document aload tempPath file_name).2 = [tempPath] ∧
    (process_document aload tempPath file_name).1 = .ok
      { content := pyStrip s1 ++ "\n\n" ++ pyStrip s2 ++ "\n\n" ++ pyStrip s3,
        file_name := file_name, num_pages := 3, doc_type := "pdf" } ∧
    analyze_contract Except.ok
        (pyStrip s1 ++ "\n\n" ++ pyStrip s2 ++ "\n\n" ++ pyStrip s3) =
      .ok (caSeg0 ++ TENANCY_LAW ++ caSeg1 ++
        (pyStrip s1 ++ "\n\n" ++ pyStrip s2 ++ "\n\n" ++ pyStrip s3) ++ caSeg2) := by
  have hne1 : s1 ≠ "" := pyStrip_ne_empty h1
  have hne2 : s2 ≠ "" := pyStrip_ne_empty h2
  have hne3 : s3 ≠ "" := pyStrip_ne_empty h3
  refine ⟨?_, ?_, ?_⟩
  · simp [process_document, parse_document, hparse, hne1, hne2, hne3, h1, h2, h3]
  · simp [process_document, parse_document, hparse, hne1, hne2, hne3, h1, h2, h3, hpdf,
      String.intercalate, String.intercalate.go, String.append_assoc]
  · simp [analyze_contract, generate_contract_analysis_prompt]

/-- C4 witness: a three-section parse of an uploaded PDF contract. -/
theorem C4_contract_analysis_pipeline_witness :
    (process_document (fun _ => .ok ["  Clause 1  ", "Clause 2", "Clause 3"])
        "tmp/upload.pdf" "contract.pdf").2 = ["tmp/upload.pdf"] ∧
    (process_document (fun _ => .ok ["  Clause 1  ", "Clause 2", "Clause 3"])
        "tmp/upload.pdf" "contract.pdf").1 = .ok
      { content := pyStrip "  Clause 1  " ++ "\n\n" ++ pyStrip "Clause 2" ++ "\n\n" ++
          pyStrip "Clause 3",
        file_name := "contract.pdf", num_pages := 3, doc_type := "pdf" } ∧
    analyze_contract Except.ok
        (pyStrip "  Clause 1  " ++ "\n\n" ++ pyStrip "Clause 2" ++ "\n\n" ++
          pyStrip "Clause 3") =
      .ok (caSeg0 ++ TENANCY_LAW ++ caSeg1 ++
        (pyStrip "  Clause 1  " ++ "\n\n" ++ pyStrip "Clause 2" ++ "\n\n" ++
          pyStrip "Clause 3") ++ caSeg2) :=
  C4_contract_analysis_pipeline (fun _ => .ok ["  Clause 1  ", "Clause 2", "Clause 3"])
    "tmp/upload.pdf" "contract.pdf" "  Clause 1  " "Clause 2" "Clause 3"
    rfl (by decide) (by decide) (by decide) (by decide)

end TenancyBot
